import Mathlib

/-!
Verification of the intent-matching and dispatch engine of the voice
assistant in `main.py`, together with its stateful handlers (notes,
to-do tasks, configuration) and their persistence contracts.

Strings are modelled by Lean `String` (a list of characters); Python
string operations used by the source (`in` substring test, `str.strip`,
`str.split`, `str.title`, `str.replace`, `re.sub` with an alternation
of literal words, `re.search` for the first digit run, negative list
indexing) are embedded as executable functions below.
-/

/-! ## Python string primitives -/

/-- Byte-for-byte prefix test on character lists. -/
def isPrefixL : List Char → List Char → Bool
  | [], _ => true
  | _ :: _, [] => false
  | a :: as, b :: bs => a == b && isPrefixL as bs

/-- Does `needle` occur as a contiguous substring of the list? -/
def subAt (needle : List Char) : List Char → Bool
  | [] => needle.isEmpty
  | c :: t => isPrefixL needle (c :: t) || subAt needle t

/-- Python `needle in hay` on strings. -/
def strContains (hay needle : String) : Bool :=
  subAt needle.data hay.data

/-- The whitespace characters recognised by Python `str.strip` / `str.split`. -/
def pySpace (c : Char) : Bool :=
  c == ' ' || c == '\t' || c == '\n' || c == '\r' || c == '\x0b' || c == '\x0c'

/-- Number of maximal non-whitespace runs: `len(s.split())`. -/
def countTokens : List Char → Bool → Nat
  | [], _ => 0
  | c :: t, inTok =>
    if pySpace c then countTokens t false
    else if inTok then countTokens t true
    else 1 + countTokens t true

/-- `len(query.split())` for a Python string. -/
def tokenCount (s : String) : Nat := countTokens s.data false

/-- Drop the given characters from the end of a list. -/
def dropWhileEnd (p : Char → Bool) (l : List Char) : List Char :=
  (l.reverse.dropWhile p).reverse

/-- Python `str.strip()` on character lists. -/
def stripL (l : List Char) : List Char :=
  dropWhileEnd pySpace (l.dropWhile pySpace)

/-- Python `str.strip()`. -/
def pyStrip (s : String) : String := ⟨stripL s.data⟩

/-- One step of `re.sub(alt1|alt2|...,"",s)`: the length of the first
alternative (in pattern order) matching at the head of `s`, if any
(all alternatives in the source patterns are nonempty literals). -/
def altHit (alts : List (List Char)) (s : List Char) : Option Nat :=
  alts.findSome? fun a =>
    if a.isPrefixOf s && !a.isEmpty then some a.length else none

/-- Scan for `re.sub(..., "", s)`: `skip` is the number of characters
still to delete from the match found at an earlier position. -/
def reSubDelAux (alts : List (List Char)) : List Char → Nat → List Char
  | [], _ => []
  | _ :: t, Nat.succ k => reSubDelAux alts t k
  | c :: t, 0 =>
    match altHit alts (c :: t) with
    | some n => reSubDelAux alts t (n - 1)
    | none => c :: reSubDelAux alts t 0

/-- `re.sub(r"(alt1|alt2|...)", "", s)` for an alternation of literal
words: scan left to right; at each position delete the first matching
alternative (alternatives tried in pattern order, matches do not
overlap), otherwise keep the character. -/
def reSubDel (alts : List (List Char)) (s : List Char) : List Char :=
  reSubDelAux alts s 0

/-- `re.sub(pattern, "", s)` on strings, for a literal alternation. -/
def reSubDelStr (alts : List String) (s : String) : String :=
  ⟨reSubDel (alts.map String.data) s.data⟩

/-- Python `str.title()` on character lists: uppercase an alphabetic
character that follows a non-alphabetic one, lowercase the rest. -/
def titleAux : List Char → Bool → List Char
  | [], _ => []
  | c :: t, prevAlpha =>
    if c.isAlpha then
      (if prevAlpha then c.toLower else c.toUpper) :: titleAux t true
    else c :: titleAux t false

/-- Python `str.title()`. -/
def titleStr (s : String) : String := ⟨titleAux s.data false⟩

/-- Python `s.replace(' ', '+')` as used when building search URLs. -/
def plusSpaces (s : String) : String :=
  ⟨s.data.map (fun c => if c = ' ' then '+' else c)⟩

/-- First maximal run of decimal digits in the text: `re.search(r"\d+", s)`. -/
def firstDigits : List Char → Option (List Char)
  | [] => none
  | c :: t => if c.isDigit then some (c :: t.takeWhile Char.isDigit) else firstDigits t

/-- Numeric value of a digit run, as `int()` parses it. -/
def natOfDigits (ds : List Char) : Nat :=
  ds.foldl (fun a c => 10 * a + (c.toNat - 48)) 0

/-- `int(re.search(r"\d+", s).group())`, `none` when no digit run exists
(the `AttributeError` path in the source). -/
def extractNum (s : String) : Option Nat :=
  (firstDigits s.data).map natOfDigits

/-- Resolution of a Python list index (negative indices count from the
end); `none` is an `IndexError`. -/
def pyResolve (len : Nat) (i : Int) : Option Nat :=
  if 0 ≤ i then (if i < (len : Int) then some i.toNat else none)
  else (if 0 ≤ (len : Int) + i then some ((len : Int) + i).toNat else none)

/-- Python slice `l[-n:]` for `n ≥ 1` (and `lst[len-n:]` in general):
the last `n` elements. -/
def lastN (n : Nat) (l : List α) : List α :=
  l.drop (l.length - n)

/-! ## Intent catalog and dispatcher (`COMMAND_TABLE`, `EXIT_KEYWORDS`, `dispatch`) -/

/-- One identifier per `cmd_*` handler function of the source. -/
inductive HandlerId where
  | time | date | openSite | searchGoogle | searchYoutube | wikipedia
  | writeNote | readNotes | addTodo | readTodos | completeTodo
  | shutdown | restart | lock | volumeUp | volumeDown | openApp
  | joke | howAreYou | name | creator | changeAssistantName | changeUserName
  | help
deriving DecidableEq, Repr

def kwTime : List String := ["what time", "current time", "time is it"]

def kwDate : List String := ["what date", "today\x27s date", "what day"]

def kwSites : List String :=
  ["open google", "open youtube", "open github", "open gmail", "open maps",
   "open reddit", "open twitter", "open linkedin", "open stackoverflow"]

def kwSearchGoogle : List String := ["search for", "google for", "search google"]

def kwYoutube : List String := ["youtube", "play on youtube", "search youtube"]

def kwWiki : List String :=
  ["wikipedia", "wiki", "who is", "tell me about", "what is", "explain"]

def kwWriteNote : List String :=
  ["write a note", "take a note", "make a note", "note that", "note down"]

def kwReadNotes : List String := ["read my notes", "show notes", "my notes"]

def kwAddTodo : List String :=
  ["add task", "add to do", "remind me", "add reminder", "new task"]

def kwReadTodos : List String :=
  ["read my tasks", "my tasks", "show tasks", "to do list", "todo list"]

def kwCompleteTodo : List String := ["complete task", "mark done", "finished task"]

def kwShutdown : List String := ["shut down", "shutdown", "power off"]

def kwRestart : List String := ["restart", "reboot"]

def kwLock : List String := ["lock screen", "lock computer", "lock the screen"]

def kwVolUp : List String := ["volume up", "increase volume", "louder"]

def kwVolDown : List String := ["volume down", "decrease volume", "quieter"]

def kwApps : List String :=
  ["open calculator", "open notepad", "open paint", "open file manager"]

def kwJoke : List String := ["tell me a joke", "joke", "make me laugh"]

def kwHowAreYou : List String := ["how are you", "how do you do"]

def kwName : List String := ["your name", "who are you", "what are you called"]

def kwCreator : List String := ["who made you", "who created you", "your creator"]

def kwChangeAssistant : List String := ["change your name", "rename yourself"]

def kwChangeUser : List String := ["change my name", "my name is"]

def kwHelp : List String := ["help", "what can you do", "commands", "features"]

/-- The ordered routing table `COMMAND_TABLE` of the source. -/
def COMMAND_TABLE : List (List String × HandlerId) :=
  [(kwTime, HandlerId.time),
   (kwDate, HandlerId.date),
   (kwSites, HandlerId.openSite),
   (kwSearchGoogle, HandlerId.searchGoogle),
   (kwYoutube, HandlerId.searchYoutube),
   (kwWiki, HandlerId.wikipedia),
   (kwWriteNote, HandlerId.writeNote),
   (kwReadNotes, HandlerId.readNotes),
   (kwAddTodo, HandlerId.addTodo),
   (kwReadTodos, HandlerId.readTodos),
   (kwCompleteTodo, HandlerId.completeTodo),
   (kwShutdown, HandlerId.shutdown),
   (kwRestart, HandlerId.restart),
   (kwLock, HandlerId.lock),
   (kwVolUp, HandlerId.volumeUp),
   (kwVolDown, HandlerId.volumeDown),
   (kwApps, HandlerId.openApp),
   (kwJoke, HandlerId.joke),
   (kwHowAreYou, HandlerId.howAreYou),
   (kwName, HandlerId.name),
   (kwCreator, HandlerId.creator),
   (kwChangeAssistant, HandlerId.changeAssistantName),
   (kwChangeUser, HandlerId.changeUserName),
   (kwHelp, HandlerId.help)]

def EXIT_KEYWORDS : List String := ["exit", "quit", "goodbye", "bye", "stop", "shut up"]

/-- `any(kw in query for kw in keywords)` for one table entry. -/
def entryMatches (e : List String × HandlerId) (q : String) : Bool :=
  e.1.any (fun kw => strContains q kw)

/-- `any(kw in query for kw in EXIT_KEYWORDS)`. -/
def isExitQ (q : String) : Bool :=
  EXIT_KEYWORDS.any (fun kw => strContains q kw)

/-- The first matching table entry, in declared order. -/
def findMatch (q : String) : Option (List String × HandlerId) :=
  COMMAND_TABLE.find? (fun e => entryMatches e q)

/-- Errors raised by handlers (Python exception payloads). -/
abbrev HError := String

def farewellMsg (userName : String) : String :=
  "Goodbye, " ++ userName ++ "! Have a wonderful day."

def genericApologyMsg : String := "Sorry, something went wrong with that command."

def notSureMsg : String := "I\x27m not sure about that, but let me check Wikipedia."

def didntUnderstandMsg : String :=
  "I didn\x27t understand that command. Try saying \x27help\x27 to see what I can do."

/-- Observable outcome of one `dispatch(query)` call.
`retval` is the returned boolean (`none` when an exception escaped
`dispatch` instead of returning), `escaped` that escaped exception,
`invoked` the handler that was called together with its argument,
`caught` a handler exception caught at the dispatcher boundary, and
`spoken` the messages spoken by `dispatch` itself. -/
structure DispatchOut where
  retval : Option Bool
  escaped : Option HError
  invoked : Option (HandlerId × String)
  caught : Option HError
  spoken : List String
deriving DecidableEq, Repr

/-- The dispatcher `dispatch(query)` of the source, with the behaviour of
the handlers abstracted as `impl` (a handler either returns or raises). -/
def dispatch (impl : HandlerId → String → Except HError Unit)
    (userName : String) (q : String) : DispatchOut :=
  if q = "" then ⟨some true, none, none, none, []⟩
  else if isExitQ q then ⟨some false, none, none, none, [farewellMsg userName]⟩
  else
    match findMatch q with
    | some e =>
      match impl e.2 q with
      | Except.ok _ => ⟨some true, none, some (e.2, q), none, []⟩
      | Except.error err => ⟨some true, none, some (e.2, q), some err, [genericApologyMsg]⟩
    | none =>
      if 3 ≤ tokenCount q then
        match impl HandlerId.wikipedia q with
        | Except.ok _ => ⟨some true, none, some (HandlerId.wikipedia, q), none, [notSureMsg]⟩
        | Except.error err => ⟨none, some err, some (HandlerId.wikipedia, q), none, [notSureMsg]⟩
      else ⟨some true, none, none, none, [didntUnderstandMsg]⟩

/-- How a session of the main loop `run` ended. -/
inductive LoopEnd where
  | exited (farewell : List String)
  | crashed (e : HError)
deriving DecidableEq, Repr

/-- The main loop `run`, driven by a finite stream of inputs: dispatch each
input until `dispatch` returns `False` (exit) or an exception escapes it;
`none` means the stream was exhausted with the session still alive. -/
def runLoop (impl : HandlerId → String → Except HError Unit)
    (userName : String) : List String → Option LoopEnd
  | [] => none
  | q :: rest =>
    match (dispatch impl userName q).escaped with
    | some e => some (LoopEnd.crashed e)
    | none =>
      match (dispatch impl userName q).retval with
      | some false => some (LoopEnd.exited (dispatch impl userName q).spoken)
      | _ => runLoop impl userName rest

/-! ## Configuration store (`DEFAULT_CONFIG`, `load_config`, settings handlers) -/

/-- A JSON scalar value as stored in `config.json` (numbers as exact
rationals: the source does no arithmetic on them). -/
inductive JVal where
  | s : String → JVal
  | n : ℚ → JVal
  | b : Bool → JVal
deriving DecidableEq, Repr

/-- A JSON object: keys in insertion order, as a Python `dict`. -/
abbrev Doc := List (String × JVal)

/-- The `DEFAULT_CONFIG` dictionary of the source. -/
def DEFAULT_CONFIG : Doc :=
  [("assistant_name", JVal.s ("Aria")),
   ("user_name", JVal.s ("User")),
   ("voice_rate", JVal.n 175),
   ("voice_volume", JVal.n 1),
   ("language", JVal.s ("en-US")),
   ("pause_threshold", JVal.n (4/5)),
   ("energy_threshold", JVal.n 300),
   ("dynamic_energy", JVal.b true),
   ("timeout", JVal.n 5),
   ("phrase_time_limit", JVal.n 10)]

/-- Does the document contain the key? -/
def hasKey (cfg : Doc) (k : String) : Bool :=
  cfg.any (fun p => p.1 = k)

/-- Value at a key, first occurrence. -/
def lookupKey (cfg : Doc) (k : String) : Option JVal :=
  (cfg.find? (fun p => p.1 = k)).map (fun p => p.2)

/-- Python `dict.setdefault`: insert (at the end, as `dict` insertion
order does) only when the key is absent. -/
def setdefault (cfg : Doc) (k : String) (v : JVal) : Doc :=
  if hasKey cfg k then cfg else cfg ++ [(k, v)]

/-- Python `cfg[k] = v`: overwrite in place, or append when absent. -/
def dictSet (cfg : Doc) (k : String) (v : JVal) : Doc :=
  if hasKey cfg k then cfg.map (fun p => if p.1 = k then (k, v) else p)
  else cfg ++ [(k, v)]

/-- The backfill loop of `load_config`:
`for k, v in DEFAULT_CONFIG.items(): cfg.setdefault(k, v)`. -/
def mergeDefaults (cfg : Doc) : Doc :=
  DEFAULT_CONFIG.foldl (fun c kv => setdefault c kv.1 kv.2) cfg

/-- `load_config()`: input is the persisted document (or `none` when the
file does not exist); output is the returned configuration together with
the persisted document after the call. -/
def load_config : Option Doc → Doc × Doc
  | some cfg => (mergeDefaults cfg, cfg)
  | none => (DEFAULT_CONFIG, DEFAULT_CONFIG)

/-- `cmd_change_assistant_name`: the listened answer is `answer`; the
result is the in-memory configuration, which is also what gets persisted
when the answer is non-empty (an empty answer changes and persists
nothing). -/
def cmd_change_assistant_name (cfg : Doc) (answer : String) : Doc :=
  if answer = "" then cfg
  else dictSet cfg ("assistant_name") (JVal.s (titleStr answer))

/-- `cmd_change_user_name`, same shape as the assistant-name handler. -/
def cmd_change_user_name (cfg : Doc) (answer : String) : Doc :=
  if answer = "" then cfg
  else dictSet cfg ("user_name") (JVal.s (titleStr answer))

/-! ## Notes store (`cmd_write_note`, `cmd_read_notes`) -/

/-- The components the source formats with `strftime("[%Y-%m-%d %H:%M]")`. -/
structure Timestamp where
  year : Nat
  month : Nat
  day : Nat
  hour : Nat
  minute : Nat
deriving DecidableEq, Repr

/-- Zero-pad a number to width `w`, as `strftime` field formatting does. -/
def padZ (w : Nat) (n : Nat) : String :=
  ⟨List.replicate (w - (Nat.repr n).length) '0' ++ (Nat.repr n).data⟩

/-- The part of the timestamp between the brackets. -/
def tsBody (t : Timestamp) : String :=
  padZ 4 t.year ++ "-" ++ padZ 2 t.month ++ "-" ++ padZ 2 t.day ++ " " ++
    padZ 2 t.hour ++ ":" ++ padZ 2 t.minute

/-- `strftime("[%Y-%m-%d %H:%M]")`. -/
def fmtTs (t : Timestamp) : String := "[" ++ tsBody t ++ "]"

/-- One persisted line of `notes.txt`: `f"{timestamp} {note}\n"` without
the terminator (the file is modelled as its list of lines). -/
def noteLine (t : Timestamp) (note : String) : String :=
  fmtTs t ++ " " ++ note

def noteAlts : List String := ["write", "take", "make", "a", "note", "saying", "that"]

/-- `re.sub(r"(write|take|make|a|note|saying|that)", "", query).strip()`. -/
def stripNote (q : String) : String := pyStrip (reSubDelStr noteAlts q)

/-- The note text finally used: the stripped query, or the clarifying
answer when the stripped query is empty. -/
def notePayload (query answer : String) : String :=
  if stripNote query = "" then answer else stripNote query

/-- `cmd_write_note`: append one timestamped line when the payload is
non-empty, otherwise leave the file untouched. -/
def cmd_write_note (notes : List String) (query answer : String) (ts : Timestamp) :
    List String :=
  if notePayload query answer = "" then notes
  else notes ++ [noteLine ts (notePayload query answer)]

/-- Outcome of `cmd_read_notes`: either the no-notes message, or the note
count plus the notes spoken (`notes[-5:]`). -/
inductive ReadNotesOut where
  | noNotes
  | haveNotes (count : Nat) (shown : List String)
deriving DecidableEq, Repr

/-- `cmd_read_notes`. -/
def cmd_read_notes (notes : List String) : ReadNotesOut :=
  if notes.isEmpty then ReadNotesOut.noNotes
  else ReadNotesOut.haveNotes notes.length (lastN 5 notes)

/-- One `cmd_write_note` invocation: the raw query, the clarifying
answer, and the timestamp the source generates at that moment. -/
structure WriteOp where
  query : String
  answer : String
  ts : Timestamp
deriving DecidableEq, Repr

/-- A sequence of `cmd_write_note` invocations against the notes file. -/
def writeAll (init : List String) (ops : List WriteOp) : List String :=
  ops.foldl (fun notes op => cmd_write_note notes op.query op.answer op.ts) init

/-! ## TodoTask store (`cmd_add_todo`, `cmd_read_todos`, `cmd_complete_todo`) -/

/-- One record of `todo.json`. -/
structure TodoTask where
  task : String
  done : Bool
  added : String
deriving DecidableEq, Repr

/-- `[t for t in todos if not t["done"]]`. -/
def pending (todos : List TodoTask) : List TodoTask :=
  todos.filter (fun t => !t.done)

def todoAlts : List String := ["add", "to do", "todo", "task", "reminder", "remind me to"]

/-- `re.sub(r"(add|to do|todo|task|reminder|remind me to)", "", query).strip()`. -/
def stripTodo (q : String) : String := pyStrip (reSubDelStr todoAlts q)

/-- `cmd_add_todo`: returns the persisted task list and the description
echoed in the confirmation (`none` when nothing was added). -/
def cmd_add_todo (todos : List TodoTask) (query answer added : String) :
    List TodoTask × Option String :=
  let task := stripTodo query
  let task2 := if task = "" then answer else task
  if task2 = "" then (todos, none)
  else (todos ++ [⟨task2, false, added⟩], some task2)

/-- Set the `done` flag of the element at a (valid) position. -/
def markDoneAt : List TodoTask → Nat → List TodoTask
  | [], _ => []
  | t :: ts, 0 => ⟨t.task, true, t.added⟩ :: ts
  | t :: ts, Nat.succ n => t :: markDoneAt ts n

/-- Python `l[i]` with negative-index semantics; `none` is `IndexError`. -/
def pyGetTask (l : List TodoTask) (i : Int) : Option TodoTask :=
  match pyResolve l.length i with
  | none => none
  | some n => l.get? n

/-- Spoken outcome of `cmd_complete_todo`. -/
inductive CompleteOutcome where
  | noPending
  | cannotIdentify
  | success (taskName : String)
deriving DecidableEq, Repr

/-- `cmd_complete_todo`: input is the stored task list and the listened
answer; output is the persisted task list after the call and the spoken
outcome. The source parses the first digit run of the answer, mutates
`todos[num]` (the FULL list, with Python negative indexing), saves, and
only then reads `pending[num]` for the confirmation; `IndexError`,
`ValueError` and `AttributeError` are caught and spoken as
"could not identify that task number". -/
def cmd_complete_todo (todos : List TodoTask) (response : String) :
    List TodoTask × CompleteOutcome :=
  let p := pending todos
  if p.isEmpty then (todos, CompleteOutcome.noPending)
  else
    match extractNum response with
    | none => (todos, CompleteOutcome.cannotIdentify)
    | some n =>
      match pyResolve todos.length ((n : Int) - 1) with
      | none => (todos, CompleteOutcome.cannotIdentify)
      | some idx =>
        let todos2 := markDoneAt todos idx
        match pyGetTask p ((n : Int) - 1) with
        | none => (todos2, CompleteOutcome.cannotIdentify)
        | some t => (todos2, CompleteOutcome.success t.task)

/-! ## Google search and power handlers -/

def googleAlts : List String := ["search", "google", "for", "on"]

/-- `re.sub(r"(search|google|for|on)", "", query).strip()`. -/
def stripGoogle (q : String) : String := pyStrip (reSubDelStr googleAlts q)

/-- The URL `cmd_search_google` opens. -/
def googleURL (term : String) : String :=
  "https://www.google.com/search?q=" ++ plusSpaces term

/-- `cmd_search_google`: the URL opened in the browser, or `none` when
both the stripped query and the clarifying answer are empty. -/
def cmd_search_google (query answer : String) : Option String :=
  let term := stripGoogle query
  let term2 := if term = "" then answer else term
  if term2 = "" then none else some (googleURL term2)

/-- The external privileged power actions. -/
inductive PowerAction where
  | shutdownNow
  | restartNow
deriving DecidableEq, Repr

def yesWord : String := "yes"

def shuttingDownMsg : String := "Shutting down. Goodbye!"

def shutdownCancelledMsg : String := "Shutdown cancelled."

def restartingMsg : String := "Restarting. See you soon!"

def restartCancelledMsg : String := "Restart cancelled."

/-- `cmd_shutdown`: the triggered power action (if any) and the spoken
reply, as a function of the listened confirmation. -/
def cmd_shutdown (confirm : String) : Option PowerAction × String :=
  if strContains confirm yesWord then (some PowerAction.shutdownNow, shuttingDownMsg)
  else (none, shutdownCancelledMsg)

/-- `cmd_restart`, same shape as `cmd_shutdown`. -/
def cmd_restart (confirm : String) : Option PowerAction × String :=
  if strContains confirm yesWord then (some PowerAction.restartNow, restartingMsg)
  else (none, restartCancelledMsg)

/-! ## Helper handler implementations used in witnesses -/

/-- A handler implementation in which every handler returns normally. -/
def implOk : HandlerId → String → Except HError Unit :=
  fun _ _ => Except.ok ()

/-- A handler implementation in which every handler raises. -/
def implBoom : HandlerId → String → Except HError Unit :=
  fun _ _ => Except.error ("boom")

/-! ## Claims C1 and C2: the complete-task operation -/

/-- Claim C1: the claim states that `complete(n)` marks done the task at
position `n` of the PENDING subsequence. The code instead marks position
`n` of the FULL task list (`todos[num]["done"] = True`) while the spoken
confirmation reads `pending[num]`. On a store whose pending subsequence
is `[A, B, C]` behind one already-completed task `D`, completing index 2
marks `A` (full-list position 2) done, persists that, and speaks success
about `B`, which stays pending: the code contradicts its own spoken
confirmation. -/
theorem claim_C1_code_bug :
    pending [⟨"D", true, "t0"⟩, ⟨"A", false, "t0"⟩, ⟨"B", false, "t0"⟩, ⟨"C", false, "t0"⟩] =
      [⟨"A", false, "t0"⟩, ⟨"B", false, "t0"⟩, ⟨"C", false, "t0"⟩] ∧
    cmd_complete_todo
        [⟨"D", true, "t0"⟩, ⟨"A", false, "t0"⟩, ⟨"B", false, "t0"⟩, ⟨"C", false, "t0"⟩] ("2") =
      ([⟨"D", true, "t0"⟩, ⟨"A", true, "t0"⟩, ⟨"B", false, "t0"⟩, ⟨"C", false, "t0"⟩],
        CompleteOutcome.success ("B")) ∧
    pending (cmd_complete_todo
        [⟨"D", true, "t0"⟩, ⟨"A", false, "t0"⟩, ⟨"B", false, "t0"⟩, ⟨"C", false, "t0"⟩] ("2")).1 =
      [⟨"B", false, "t0"⟩, ⟨"C", false, "t0"⟩] := by
  refine ⟨by decide, by decide, by decide⟩

/-- Claim C2: the claim states that a supplied number of 0, or one
exceeding the pending count, fails with an index error and leaves the
store unmodified. The code computes `num = 0 - 1 = -1` and Python
negative indexing makes `todos[-1]` the LAST task: supplying 0 marks the
last task done, persists, and reports success. Supplying a number that
exceeds the pending count but not the full-list length mutates and
persists the store BEFORE the `IndexError` on `pending[num]` is raised,
so the store is modified even on the error path. -/
theorem claim_C2_code_bug :
    cmd_complete_todo
        [⟨"A", false, "t0"⟩, ⟨"B", false, "t0"⟩, ⟨"C", false, "t0"⟩] ("0") =
      ([⟨"A", false, "t0"⟩, ⟨"B", false, "t0"⟩, ⟨"C", true, "t0"⟩],
        CompleteOutcome.success ("C")) ∧
    cmd_complete_todo
        [⟨"A", true, "t0"⟩, ⟨"B", false, "t0"⟩, ⟨"C", false, "t0"⟩] ("3") =
      ([⟨"A", true, "t0"⟩, ⟨"B", false, "t0"⟩, ⟨"C", true, "t0"⟩],
        CompleteOutcome.cannotIdentify) := by
  refine ⟨by decide, by decide⟩

/-! ## Evaluation lemmas for the dispatcher branches -/

/-- Exit branch of `dispatch`. -/
theorem dispatch_exit (impl : HandlerId → String → Except HError Unit)
    (user q : String) (hq : q ≠ "") (hx : isExitQ q = true) :
    dispatch impl user q = ⟨some false, none, none, none, [farewellMsg user]⟩ := by
  unfold dispatch
  rw [if_neg hq, if_pos (by simp [hx])]

/-- Matched branch of `dispatch`: the outcome of the first matching
entry's handler, with its failure caught. -/
theorem dispatch_matched (impl : HandlerId → String → Except HError Unit)
    (user q : String) (e : List String × HandlerId)
    (hq : q ≠ "") (hx : isExitQ q = false) (hm : findMatch q = some e) :
    dispatch impl user q =
      match impl e.2 q with
      | Except.ok _ => ⟨some true, none, some (e.2, q), none, []⟩
      | Except.error err =>
        ⟨some true, none, some (e.2, q), some err, [genericApologyMsg]⟩ := by
  unfold dispatch
  rw [if_neg hq, if_neg (by simp [hx]), hm]

/-- Fallback branch of `dispatch` (no catalog match). -/
theorem dispatch_fallback (impl : HandlerId → String → Except HError Unit)
    (user q : String)
    (hq : q ≠ "") (hx : isExitQ q = false) (hm : findMatch q = none) :
    dispatch impl user q =
      if 3 ≤ tokenCount q then
        match impl HandlerId.wikipedia q with
        | Except.ok _ =>
          ⟨some true, none, some (HandlerId.wikipedia, q), none, [notSureMsg]⟩
        | Except.error err =>
          ⟨none, some err, some (HandlerId.wikipedia, q), none, [notSureMsg]⟩
      else ⟨some true, none, none, none, [didntUnderstandMsg]⟩ := by
  unfold dispatch
  rw [if_neg hq, if_neg (by simp [hx]), hm]

/-! ## Claim C3: exit keywords have strict priority -/

/-- Claim C3: for every non-empty input containing an exit keyword as a
substring, `dispatch` returns the terminal signal (`False`), speaks the
farewell, and invokes no catalog handler, whatever the handlers do. -/
theorem claim_C3 (impl : HandlerId → String → Except HError Unit)
    (user q : String) (hq : q ≠ "") (hx : isExitQ q = true) :
    dispatch impl user q = ⟨some false, none, none, none, [farewellMsg user]⟩ :=
  dispatch_exit impl user q hq hx

/-- Exit wins even on an input that also matches a catalog entry
(`"stop playing youtube"` contains the exit keyword `"stop"` and the
catalog keyword `"youtube"`). -/
theorem claim_C3_witness :
    (entryMatches (kwYoutube, HandlerId.searchYoutube) ("stop playing youtube") = true ∧
      isExitQ ("stop playing youtube") = true) ∧
    dispatch implOk ("User") ("stop playing youtube") =
      ⟨some false, none, none, none, [farewellMsg ("User")]⟩ :=
  ⟨⟨by decide, by decide⟩,
    claim_C3 implOk ("User") ("stop playing youtube") (by decide) (by decide)⟩

/-! ## Claim C4: fallback behaviour on unmatched inputs -/

/-- Claim C4: on a non-empty, non-exit input matching no catalog entry,
`dispatch` invokes the Wikipedia handler with the full input text when
the input has at least 3 whitespace-delimited tokens (and returns the
continue signal when that handler returns; it never returns the terminal
signal), and with fewer than 3 tokens it emits the
did-not-understand message, performs no lookup, and returns the continue
signal. -/
theorem claim_C4 (impl : HandlerId → String → Except HError Unit)
    (user q : String) (hq : q ≠ "") (hx : isExitQ q = false)
    (hm : findMatch q = none) :
    (3 ≤ tokenCount q →
      (dispatch impl user q).invoked = some (HandlerId.wikipedia, q) ∧
      (dispatch impl user q).retval ≠ some false ∧
      (∀ u, impl HandlerId.wikipedia q = Except.ok u →
        dispatch impl user q =
          ⟨some true, none, some (HandlerId.wikipedia, q), none, [notSureMsg]⟩)) ∧
    (tokenCount q < 3 →
      dispatch impl user q = ⟨some true, none, none, none, [didntUnderstandMsg]⟩) := by
  have hd := dispatch_fallback impl user q hq hx hm
  constructor
  · intro h3
    rw [if_pos h3] at hd
    cases himpl : impl HandlerId.wikipedia q with
    | ok u =>
      rw [himpl] at hd
      exact ⟨by rw [hd], by rw [hd]; simp, fun v hv => by rw [hd]⟩
    | error err =>
      rw [himpl] at hd
      refine ⟨by rw [hd], by rw [hd]; simp, fun v hv => ?_⟩
      simp [himpl] at hv
  · intro h3
    rw [if_neg (by omega)] at hd
    exact hd

/-- Fallback on the two concrete inputs of the spec scenarios: a 4-token
unmatched input goes to the Wikipedia handler with the full text; the
single token `"banana"` gets the did-not-understand message and no
lookup. -/
theorem claim_C4_witness :
    (dispatch implOk ("User") ("tell me something nice")).invoked =
      some (HandlerId.wikipedia, "tell me something nice") ∧
    dispatch implOk ("User") ("banana") =
      ⟨some true, none, none, none, [didntUnderstandMsg]⟩ :=
  ⟨((claim_C4 implOk ("User") ("tell me something nice")
      (by decide) (by decide) (by decide)).1 (by decide)).1,
    (claim_C4 implOk ("User") ("banana")
      (by decide) (by decide) (by decide)).2 (by decide)⟩

/-! ## Claim C5: handler faults are isolated at the dispatcher boundary -/

/-- For inputs that are empty, contain an exit keyword, or match a
catalog entry, no exception ever escapes `dispatch`. -/
theorem dispatch_escaped_none (impl : HandlerId → String → Except HError Unit)
    (user r : String)
    (h : r = "" ∨ isExitQ r = true ∨ (findMatch r).isSome = true) :
    (dispatch impl user r).escaped = none := by
  by_cases h1 : r = ""
  · subst h1
    rfl
  · by_cases h2 : isExitQ r
    · rw [dispatch_exit impl user r h1 h2]
    · cases hm : findMatch r with
      | some e =>
        rw [dispatch_matched impl user r e h1 (by simpa using h2) hm]
        cases impl e.2 r <;> rfl
      | none =>
        rcases h with h | h | h
        · exact absurd h h1
        · exact absurd h h2
        · rw [hm] at h
          cases h

/-- Claim C5: for every input matched to a catalog handler, any exception
the handler raises is caught inside `dispatch`: the generic apology is
spoken, the fault is recorded as a diagnostic, `dispatch` returns the
continue signal and no exception escapes; and a main loop fed only
empty, exit, or catalog-matched inputs can end only through the exit
transition, never by a crash. -/
theorem claim_C5 (impl : HandlerId → String → Except HError Unit)
    (user q : String) (e : List String × HandlerId)
    (hq : q ≠ "") (hx : isExitQ q = false) (hm : findMatch q = some e) :
    ((dispatch impl user q).retval = some true ∧
      (dispatch impl user q).escaped = none) ∧
    (∀ err, impl e.2 q = Except.error err →
      dispatch impl user q =
        ⟨some true, none, some (e.2, q), some err, [genericApologyMsg]⟩) ∧
    (∀ inputs : List String,
      (∀ r ∈ inputs, r = "" ∨ isExitQ r = true ∨ (findMatch r).isSome = true) →
      ∀ ending, runLoop impl user inputs = some ending →
        ∃ farewell, ending = LoopEnd.exited farewell) := by
  refine ⟨?_, ?_, ?_⟩
  · rw [dispatch_matched impl user q e hq hx hm]
    cases impl e.2 q <;> exact ⟨rfl, rfl⟩
  · intro err herr
    rw [dispatch_matched impl user q e hq hx hm, herr]
  · intro inputs
    induction inputs with
    | nil =>
      intro _ ending h
      cases h
    | cons r rest ih =>
      intro hinp ending hrun
      unfold runLoop at hrun
      rw [dispatch_escaped_none impl user r (hinp r (List.mem_cons_self _ _))] at hrun
      cases hr : (dispatch impl user r).retval with
      | none =>
        simp only [hr] at hrun
        exact ih (fun x hx2 => hinp x (List.mem_cons_of_mem _ hx2)) ending hrun
      | some b =>
        cases b with
        | false =>
          simp only [hr] at hrun
          exact ⟨(dispatch impl user r).spoken, (Option.some.inj hrun).symm⟩
        | true =>
          simp only [hr] at hrun
          exact ih (fun x hx2 => hinp x (List.mem_cons_of_mem _ hx2)) ending hrun

/-- A raising joke handler is caught: apology spoken, fault logged, loop
continues; and a session of matched and exit inputs ends by exit. -/
theorem claim_C5_witness :
    dispatch implBoom ("User") ("tell me a joke") =
      ⟨some true, none, some (HandlerId.joke, "tell me a joke"),
        some ("boom"), [genericApologyMsg]⟩ :=
  (claim_C5 implBoom ("User") ("tell me a joke") (kwJoke, HandlerId.joke)
    (by decide) (by decide) (by decide)).2.1 ("boom") rfl

/-! ## Claim C9: power actions require an affirmative confirmation -/

/-- Claim C9: the shutdown and restart handlers trigger their external
privileged action exactly when the confirmation answer contains the
affirmative word; any other answer (including the empty one) cancels
with only a spoken cancellation. -/
theorem claim_C9 (confirm : String) :
    ((cmd_shutdown confirm).1 = some PowerAction.shutdownNow ↔
      strContains confirm yesWord = true) ∧
    ((cmd_restart confirm).1 = some PowerAction.restartNow ↔
      strContains confirm yesWord = true) ∧
    (strContains confirm yesWord = false →
      cmd_shutdown confirm = (none, shutdownCancelledMsg) ∧
      cmd_restart confirm = (none, restartCancelledMsg)) := by
  unfold cmd_shutdown cmd_restart
  by_cases h : strContains confirm yesWord <;> simp [h]

/-- The empty confirmation answer cancels both power handlers. -/
theorem claim_C9_witness :
    cmd_shutdown ("") = (none, shutdownCancelledMsg) ∧
    cmd_restart ("") = (none, restartCancelledMsg) :=
  (claim_C9 ("")).2.2 (by decide)

/-! ## Claim C10: empty payload plus empty follow-up answer mutates nothing -/

/-- Claim C10: for the write-note, add-task and Google-search handlers,
when keyword stripping leaves an empty payload and the single clarifying
follow-up answer is also empty, the handler performs no store mutation
and no external action: the notes file and task store are returned
unchanged and no URL is opened. -/
theorem claim_C10 (qn qt qg ans : String) (notes : List String)
    (todos : List TodoTask) (ts : Timestamp) (added : String)
    (h1 : stripNote qn = "") (h2 : stripTodo qt = "")
    (h3 : stripGoogle qg = "") (hans : ans = "") :
    cmd_write_note notes qn ans ts = notes ∧
    cmd_add_todo todos qt ans added = (todos, none) ∧
    cmd_search_google qg ans = none := by
  subst hans
  refine ⟨?_, ?_, ?_⟩
  · unfold cmd_write_note notePayload
    simp [h1]
  · unfold cmd_add_todo
    simp [h2]
  · unfold cmd_search_google
    simp [h3]

/-- Concrete bare-trigger utterances whose stripped payload is empty,
with an empty follow-up answer: nothing is written, added, or opened. -/
theorem claim_C10_witness :
    cmd_write_note [] ("write a note") ("") ⟨2024, 5, 6, 7, 8⟩ = [] ∧
    cmd_add_todo [] ("add task") ("") ("t0") = ([], none) ∧
    cmd_search_google ("search google") ("") = none :=
  claim_C10 ("write a note") ("add task") ("search google") ("") [] []
    ⟨2024, 5, 6, 7, 8⟩ ("t0") (by decide) (by decide) (by decide) rfl

/-! ## Claim C7: ordered first-match semantics of the catalog -/

/-- `List.find?` returns exactly the first element satisfying the
predicate: characterization by position. -/
theorem find_eq_some_first {α : Type} (p : α → Bool) :
    ∀ (l : List α) (a : α),
      l.find? p = some a ↔
        ∃ i, l.get? i = some a ∧ p a = true ∧
          ∀ j b, j < i → l.get? j = some b → p b = false := by
  intro l
  induction l with
  | nil =>
    intro a
    simp
  | cons c t ih =>
    intro a
    by_cases hc : p c = true
    · rw [List.find?_cons_of_pos _ hc]
      constructor
      · intro h
        have hca : c = a := Option.some.inj h
        exact ⟨0, by rw [List.get?_cons_zero, hca], hca ▸ hc,
          fun j b hj _ => absurd hj (Nat.not_lt_zero j)⟩
      · rintro ⟨i, hget, hpa, hmin⟩
        cases i with
        | zero =>
          rw [List.get?_cons_zero] at hget
          exact hget
        | succ i =>
          have h0 := hmin 0 c (Nat.succ_pos i) (by rw [List.get?_cons_zero])
          rw [hc] at h0
          cases h0
    · have hcf : p c = false := by simpa using hc
      rw [List.find?_cons_of_neg _ hc, ih a]
      constructor
      · rintro ⟨i, hget, hpa, hmin⟩
        refine ⟨i + 1, by simpa using hget, hpa, ?_⟩
        intro j b hj hgb
        cases j with
        | zero =>
          rw [List.get?_cons_zero] at hgb
          cases hgb
          exact hcf
        | succ j =>
          exact hmin j b (Nat.lt_of_succ_lt_succ hj) (by simpa using hgb)
      · rintro ⟨i, hget, hpa, hmin⟩
        cases i with
        | zero =>
          rw [List.get?_cons_zero] at hget
          cases hget
          rw [hpa] at hcf
          cases hcf
        | succ i =>
          refine ⟨i, by simpa using hget, hpa, ?_⟩
          intro j b hj hgb
          exact hmin (j + 1) b (Nat.succ_lt_succ hj) (by simpa using hgb)

/-- Claim C7: intent matching scans the catalog in declared table order;
an entry matches exactly when one of its keyword phrases is a substring
of the input; the handler of the FIRST matching entry is the one invoked
with the input (later matching entries are never invoked), and with no
matching entry the result is `none` (fallback). -/
theorem claim_C7 (q : String) :
    (findMatch q = none ↔ ∀ e ∈ COMMAND_TABLE, entryMatches e q = false) ∧
    (∀ e, findMatch q = some e ↔
      ∃ i, COMMAND_TABLE.get? i = some e ∧ entryMatches e q = true ∧
        ∀ j e2, j < i → COMMAND_TABLE.get? j = some e2 →
          entryMatches e2 q = false) ∧
    (∀ (impl : HandlerId → String → Except HError Unit) (user : String)
        (e : List String × HandlerId),
      q ≠ "" → isExitQ q = false → findMatch q = some e →
      (dispatch impl user q).invoked = some (e.2, q)) := by
  refine ⟨?_, ?_, ?_⟩
  · unfold findMatch
    rw [List.find?_eq_none]
    constructor
    · intro h e he
      simpa using h e he
    · intro h e he
      simp [h e he]
  · intro e
    exact find_eq_some_first (fun e2 => entryMatches e2 q) COMMAND_TABLE e
  · intro impl user e hq hx hm
    rw [dispatch_matched impl user q e hq hx hm]
    cases impl e.2 q <;> rfl

/-- The input `"open youtube"` matches both the open-site entry and the
later YouTube-search entry; the earlier open-site entry wins. -/
theorem claim_C7_witness :
    (entryMatches (kwYoutube, HandlerId.searchYoutube) ("open youtube") = true ∧
      findMatch ("open youtube") = some (kwSites, HandlerId.openSite)) ∧
    (dispatch implOk ("User") ("open youtube")).invoked =
      some (HandlerId.openSite, "open youtube") :=
  ⟨⟨by decide, by decide⟩,
    (claim_C7 ("open youtube")).2.2 implOk ("User") (kwSites, HandlerId.openSite)
      (by decide) (by decide) (by decide)⟩

/-! ## Claim C6: configuration defaults are backfilled, never overwritten -/

/-- `find?` over an append looks in the left part first. -/
theorem find_append_left {α : Type} (p : α → Bool) (l1 l2 : List α) (x : α)
    (h : l1.find? p = some x) : (l1 ++ l2).find? p = some x := by
  induction l1 with
  | nil => simp at h
  | cons a t ih =>
    by_cases ha : p a = true
    · rw [List.find?_cons_of_pos _ ha] at h
      rw [List.cons_append, List.find?_cons_of_pos _ ha]
      exact h
    · rw [List.find?_cons_of_neg _ ha] at h
      rw [List.cons_append, List.find?_cons_of_neg _ ha]
      exact ih h

/-- A present key is found by `find?`. -/
theorem hasKey_find_some (c : Doc) (k : String) (h : hasKey c k = true) :
    ∃ p, c.find? (fun q => q.1 = k) = some p := by
  unfold hasKey at h
  rw [List.any_eq_true] at h
  obtain ⟨x, hx, hpx⟩ := h
  have hs : (c.find? (fun q => q.1 = k)).isSome := by
    rw [List.find?_isSome]
    exact ⟨x, hx, hpx⟩
  exact Option.isSome_iff_exists.mp hs

/-- `setdefault` makes its key present. -/
theorem setdefault_hasKey_self (c : Doc) (k : String) (v : JVal) :
    hasKey (setdefault c k v) k = true := by
  unfold setdefault
  by_cases h : hasKey c k = true
  · rw [if_pos h]
    exact h
  · rw [if_neg h]
    unfold hasKey
    rw [List.any_append]
    simp

/-- `setdefault` keeps every present key present. -/
theorem setdefault_hasKey_mono (c : Doc) (k k2 : String) (v : JVal)
    (h : hasKey c k2 = true) : hasKey (setdefault c k v) k2 = true := by
  unfold setdefault
  by_cases hc : hasKey c k = true
  · rw [if_pos hc]
    exact h
  · rw [if_neg hc]
    unfold hasKey at h ⊢
    rw [List.any_append, h]
    rfl

/-- `setdefault` never changes the value of a key that is already
present. -/
theorem setdefault_lookup (c : Doc) (k k2 : String) (v : JVal)
    (h : hasKey c k2 = true) :
    lookupKey (setdefault c k v) k2 = lookupKey c k2 := by
  unfold setdefault
  by_cases hc : hasKey c k = true
  · rw [if_pos hc]
  · rw [if_neg hc]
    obtain ⟨p, hp⟩ := hasKey_find_some c k2 h
    unfold lookupKey
    rw [find_append_left _ c _ p hp, hp]

/-- Folding `setdefault` over a list of defaults keeps present keys. -/
theorem foldl_setdefault_mono (ds : List (String × JVal)) (k : String) :
    ∀ c : Doc, hasKey c k = true →
      hasKey (ds.foldl (fun c2 kv => setdefault c2 kv.1 kv.2) c) k = true := by
  induction ds with
  | nil =>
    intro c h
    exact h
  | cons d t ih =>
    intro c h
    rw [List.foldl_cons]
    exact ih _ (setdefault_hasKey_mono c d.1 k d.2 h)

/-- After folding `setdefault` over the defaults, every default key is
present. -/
theorem foldl_setdefault_hasKey (ds : List (String × JVal)) (kv : String × JVal) :
    ∀ c : Doc, kv ∈ ds →
      hasKey (ds.foldl (fun c2 kv2 => setdefault c2 kv2.1 kv2.2) c) kv.1 = true := by
  induction ds with
  | nil =>
    intro c h
    cases h
  | cons d t ih =>
    intro c hmem
    rw [List.foldl_cons]
    rcases List.mem_cons.mp hmem with h | h
    · subst h
      exact foldl_setdefault_mono t kv.1 _ (setdefault_hasKey_self c kv.1 kv.2)
    · exact ih _ h

/-- Folding `setdefault` over the defaults never changes the value of a
key present in the persisted document. -/
theorem foldl_setdefault_lookup (ds : List (String × JVal)) (k : String) :
    ∀ c : Doc, hasKey c k = true →
      lookupKey (ds.foldl (fun c2 kv => setdefault c2 kv.1 kv.2) c) k =
        lookupKey c k := by
  induction ds with
  | nil =>
    intro c _
    rfl
  | cons d t ih =>
    intro c h
    rw [List.foldl_cons, ih _ (setdefault_hasKey_mono c d.1 k d.2 h),
      setdefault_lookup c d.1 k d.2 h]

/-- Every default key is present after the backfill loop. -/
theorem mergeDefaults_hasKey (kv : String × JVal) (hmem : kv ∈ DEFAULT_CONFIG)
    (c : Doc) : hasKey (mergeDefaults c) kv.1 = true := by
  unfold mergeDefaults
  exact foldl_setdefault_hasKey DEFAULT_CONFIG kv c hmem

/-- The backfill loop never changes the value of a present key. -/
theorem mergeDefaults_lookup (k : String) (c : Doc) (h : hasKey c k = true) :
    lookupKey (mergeDefaults c) k = lookupKey c k := by
  unfold mergeDefaults
  exact foldl_setdefault_lookup DEFAULT_CONFIG k c h

attribute [irreducible] mergeDefaults

/-- Overwriting one key in place preserves the key set. -/
theorem map_update_any_key (c : Doc) (k k2 : String) (v : JVal) :
    (c.map (fun p => if p.1 = k then (k, v) else p)).any (fun p => p.1 = k2) =
      c.any (fun p => p.1 = k2) := by
  induction c with
  | nil => rfl
  | cons a t ih =>
    by_cases ha : a.1 = k
    · simp [ha, ih]
    · simp [ha, ih]

/-- Python dict assignment keeps every present key present. -/
theorem dictSet_hasKey_mono (c : Doc) (k k2 : String) (v : JVal)
    (h : hasKey c k2 = true) : hasKey (dictSet c k v) k2 = true := by
  unfold dictSet
  by_cases hc : hasKey c k = true
  · rw [if_pos hc]
    unfold hasKey at h ⊢
    rw [map_update_any_key]
    exact h
  · rw [if_neg hc]
    unfold hasKey at h ⊢
    rw [List.any_append, h]
    rfl

/-- Claim C6: `load_config` returns a configuration containing every
default key; a key present in the persisted document keeps its persisted
value (defaults never overwrite); with no persisted document the default
document is written and returned; and the settings-mutation handlers
preserve presence of every (default) key. -/
theorem claim_C6 :
    (∀ persisted : Doc, ∀ kv ∈ DEFAULT_CONFIG,
      hasKey (load_config (some persisted)).1 kv.1 = true) ∧
    (∀ (persisted : Doc) (k : String), hasKey persisted k = true →
      lookupKey (load_config (some persisted)).1 k = lookupKey persisted k) ∧
    load_config none = (DEFAULT_CONFIG, DEFAULT_CONFIG) ∧
    (∀ (cfg : Doc) (ans : String) (kv : String × JVal), kv ∈ DEFAULT_CONFIG →
      hasKey cfg kv.1 = true →
      hasKey (cmd_change_assistant_name cfg ans) kv.1 = true ∧
      hasKey (cmd_change_user_name cfg ans) kv.1 = true) := by
  refine ⟨?_, ?_, rfl, ?_⟩
  · intro persisted kv hmem
    show hasKey (mergeDefaults persisted) kv.1 = true
    exact mergeDefaults_hasKey kv hmem persisted
  · intro persisted k h
    show lookupKey (mergeDefaults persisted) k = lookupKey persisted k
    exact mergeDefaults_lookup k persisted h
  · intro cfg ans kv _ h
    constructor
    · unfold cmd_change_assistant_name
      by_cases ha : ans = ""
      · rw [if_pos ha]
        exact h
      · rw [if_neg ha]
        exact dictSet_hasKey_mono cfg _ kv.1 _ h
    · unfold cmd_change_user_name
      by_cases ha : ans = ""
      · rw [if_pos ha]
        exact h
      · rw [if_neg ha]
        exact dictSet_hasKey_mono cfg _ kv.1 _ h

/-- Loading a partial persisted document backfills the missing keys,
keeps the persisted value of a present key, and a settings mutation
keeps the default keys present. -/
theorem claim_C6_witness :
    hasKey (load_config (some [("user_name", JVal.s ("Bob"))])).1
      ("assistant_name") = true ∧
    lookupKey (load_config (some [("user_name", JVal.s ("Bob"))])).1
      ("user_name") = lookupKey [("user_name", JVal.s ("Bob"))] ("user_name") ∧
    hasKey (cmd_change_assistant_name DEFAULT_CONFIG ("nova"))
      ("voice_rate") = true :=
  ⟨claim_C6.1 [("user_name", JVal.s ("Bob"))]
      ("assistant_name", JVal.s ("Aria")) (by decide),
    claim_C6.2.1 [("user_name", JVal.s ("Bob"))] ("user_name") (by decide),
    (claim_C6.2.2.2 DEFAULT_CONFIG ("nova") ("voice_rate", JVal.n 175)
      (by decide) (by decide)).1⟩

/-! ## Claim C8: notes are append-only, read in order, empty store is normal -/

/-- Dropping the length of the left part of an append, plus `n`, drops
into the right part. -/
theorem drop_length_add {α : Type} (l1 l2 : List α) (n : Nat) :
    (l1 ++ l2).drop (l1.length + n) = l2.drop n := by
  induction l1 with
  | nil => simp
  | cons a t ih =>
    simp only [List.cons_append, List.length_cons]
    rw [show t.length + 1 + n = (t.length + n) + 1 by omega, List.drop_succ_cons]
    exact ih

/-- The last `n` elements of an append are taken from the right part when
it is long enough. -/
theorem lastN_append {α : Type} (l1 l2 : List α) (n : Nat) (h : n ≤ l2.length) :
    lastN n (l1 ++ l2) = lastN n l2 := by
  unfold lastN
  rw [List.length_append,
    show l1.length + l2.length - n = l1.length + (l2.length - n) by omega,
    drop_length_add]

/-- A run of successful `cmd_write_note` calls appends exactly one
timestamped line per call, in call order. -/
theorem writeAll_eq (ops : List WriteOp) :
    ∀ init : List String,
      (∀ op ∈ ops, notePayload op.query op.answer ≠ "") →
      writeAll init ops =
        init ++ ops.map (fun op => noteLine op.ts (notePayload op.query op.answer)) := by
  induction ops with
  | nil =>
    intro init _
    simp [writeAll]
  | cons op t ih =>
    intro init h
    have hop : notePayload op.query op.answer ≠ "" := h op (List.mem_cons_self _ _)
    have ht : ∀ o ∈ t, notePayload o.query o.answer ≠ "" :=
      fun o ho => h o (List.mem_cons_of_mem _ ho)
    unfold writeAll at ih ⊢
    rw [List.foldl_cons]
    have hw : cmd_write_note init op.query op.answer op.ts =
        init ++ [noteLine op.ts (notePayload op.query op.answer)] := by
      unfold cmd_write_note
      rw [if_neg hop]
    rw [hw, ih _ ht, List.append_assoc]
    rfl

/-- Claim C8: after a sequence of note appends (each with a non-empty
payload), reading the last `n` notes (the source reads the last 5)
returns exactly the last `n` appended lines in append order; each line
carries its bracketed creation timestamp; and on an empty store the read
handler returns the normal no-notes result (it is a total function, so
it never raises). -/
theorem claim_C8 (init : List String) (ops : List WriteOp) (n : Nat)
    (hn : n ≤ ops.length)
    (hpay : ∀ op ∈ ops, notePayload op.query op.answer ≠ "") :
    lastN n (writeAll init ops) =
      lastN n (ops.map (fun op => noteLine op.ts (notePayload op.query op.answer))) ∧
    (∀ (t : Timestamp) (s : String),
      noteLine t s = ("[" ++ tsBody t ++ "]") ++ " " ++ s) ∧
    cmd_read_notes [] = ReadNotesOut.noNotes ∧
    (∀ notes : List String, notes ≠ [] →
      cmd_read_notes notes = ReadNotesOut.haveNotes notes.length (lastN 5 notes)) := by
  refine ⟨?_, fun t s => rfl, rfl, fun notes hne => ?_⟩
  · rw [writeAll_eq ops init hpay]
    exact lastN_append init _ n (by simpa using hn)
  · unfold cmd_read_notes
    rw [if_neg (by simp only [List.isEmpty_iff]; exact hne)]

/-- Two concrete appends (one via the clarifying answer, one from the
stripped query); reading the last one returns the second line. -/
def opsW : List WriteOp :=
  [⟨"write a note", "milk", ⟨2024, 1, 2, 3, 4⟩⟩,
   ⟨"note that bread", "", ⟨2024, 1, 2, 3, 5⟩⟩]

/-- The two-append run instantiates the tail-reading law at `n = 1`. -/
theorem claim_C8_witness :
    lastN 1 (writeAll [] opsW) =
      lastN 1 (opsW.map (fun op => noteLine op.ts (notePayload op.query op.answer))) :=
  (claim_C8 [] opsW 1 (by decide) (by decide)).1
